import Mathlib

/-!
Shallow embedding of the S2S3-Auto-Submit repository: the orchestration
script S2S3_Submit.py (class S2SForecastRunner) and the readiness probe
s2s_check.py. Pure Python computations become Lean functions; filesystem
and subprocess effects are passed in explicitly as environment records;
a Python exception escaping a function becomes an Except.error value.
-/

/-- Leap-year rule of the proleptic Gregorian calendar used by Python
datetime: divisible by 4, and not by 100 unless also by 400. -/
def isLeap (y : Nat) : Bool :=
  y % 4 == 0 && (y % 100 != 0 || y % 400 == 0)

/-- Number of days of month m in year y (proleptic Gregorian). -/
def daysInMonth (y m : Nat) : Nat :=
  if m = 2 then (if isLeap y then 29 else 28)
  else if m = 4 ∨ m = 6 ∨ m = 9 ∨ m = 11 then 30
  else 31

/-- Days in year y that precede the first day of month m. -/
def daysBeforeMonth (y m : Nat) : Nat :=
  (List.range (m - 1)).foldl (fun acc i => acc + daysInMonth y (i + 1)) 0

/-- One-based day-of-year index of a date. -/
def dayOfYear (y m d : Nat) : Nat := daysBeforeMonth y m + d

/-- Proleptic Gregorian ordinal of a date, as computed by Python
datetime.toordinal; differences of ordinals give timedelta day counts. -/
def toOrdinal (y m d : Nat) : Nat :=
  (y - 1) * 365 + (y - 1) / 4 - (y - 1) / 100 + (y - 1) / 400
    + daysBeforeMonth y m + d

/-- Range checks made by the Python datetime constructor. -/
def validDate (y m d : Nat) : Prop :=
  1 ≤ y ∧ y ≤ 9999 ∧ 1 ≤ m ∧ m ≤ 12 ∧ 1 ≤ d ∧ d ≤ daysInMonth y m

instance (y m d : Nat) : Decidable (validDate y m d) := by
  unfold validDate
  exact inferInstance

/-- Split a character list at every dash, keeping empty groups. -/
def splitDash : List Char → List (List Char)
  | [] => [[]]
  | c :: cs =>
    if c = '-' then [] :: splitDash cs
    else
      match splitDash cs with
      | [] => [[c]]
      | g :: gs => (c :: g) :: gs

/-- Decimal value of a digit string. -/
def digitsVal (cs : List Char) : Nat :=
  cs.foldl (fun n c => n * 10 + (c.toNat - 48)) 0

def allDigits (cs : List Char) : Bool := cs.all Char.isDigit

/-- Modeled after CPython strptime with format string Y-m-d followed by the
datetime constructor: the year field is exactly four digits, the month and
day fields one or two digits, the three numbers must form a valid date,
and the dashes must appear literally with nothing left over. Every failure
mode raises ValueError, here an Except.error result. -/
def strptimeYmd (s : String) : Except String (Nat × Nat × Nat) :=
  match splitDash s.toList with
  | [ys, ms, ds] =>
    if ys.length == 4 && allDigits ys
        && (ms.length == 1 || ms.length == 2) && allDigits ms
        && (ds.length == 1 || ds.length == 2) && allDigits ds then
      let y := digitsVal ys
      let m := digitsVal ms
      let d := digitsVal ds
      if validDate y m d then .ok (y, m, d) else .error "ValueError"
    else .error "ValueError"
  | _ => .error "ValueError"

/-- Eligibility decision of S2SForecastRunner.check_forecast_date on an
already-parsed date: the whole-day difference between the date and Jan 1
of its own year, taken modulo 5, must be zero. -/
def eligB (y m d : Nat) : Bool :=
  (toOrdinal y m d - toOrdinal y 1 1) % 5 == 0

/-- S2SForecastRunner.check_forecast_date: parse the incoming string with
strptime (a malformed string raises ValueError, which the caller does not
catch), then test the 5-day pattern anchored at Jan 1. -/
def check_forecast_date (input_date : String) : Except String Bool :=
  match strptimeYmd input_date with
  | .error e => .error e
  | .ok (y, m, d) => .ok (eligB y m d)

/-- Decimal representation of n left-padded with zeros to width k, as
produced by the zero-padding strftime conversions. -/
def pad (k n : Nat) : String :=
  let s := Nat.repr n
  String.mk (List.replicate (k - s.length) '0') ++ s

/-- A Python datetime value restricted to the fields this code touches. -/
structure PyDateTime where
  year : Nat
  month : Nat
  day : Nat
  hour : Nat
  minute : Nat
deriving DecidableEq

/-- strftime Y-m-d. -/
def fmt_date (t : PyDateTime) : String :=
  pad 4 t.year ++ "-" ++ pad 2 t.month ++ "-" ++ pad 2 t.day

/-- strftime H:M. -/
def fmt_HM (t : PyDateTime) : String :=
  pad 2 t.hour ++ ":" ++ pad 2 t.minute

/-- strftime YmD_HMz used for the CMAP file name. -/
def fmt_Ymd_HMz (t : PyDateTime) : String :=
  pad 4 t.year ++ pad 2 t.month ++ pad 2 t.day ++ "_"
    ++ pad 2 t.hour ++ pad 2 t.minute ++ "z"

/-- strftime Ymd_Hz used for the ana.eta file name. -/
def fmt_Ymd_Hz (t : PyDateTime) : String :=
  pad 4 t.year ++ pad 2 t.month ++ pad 2 t.day ++ "_" ++ pad 2 t.hour ++ "z"

/-- Subtracting a one-day timedelta from a datetime, on the date fields. -/
def predDT (t : PyDateTime) : PyDateTime :=
  if 1 < t.day then { t with day := t.day - 1 }
  else if 1 < t.month then
    { t with month := t.month - 1, day := daysInMonth t.year (t.month - 1) }
  else { t with year := t.year - 1, month := 12, day := 31 }

/-- Read-only view of the filesystem as the probe script sees it:
whether a path names an existing regular file, and the lines of a text
file when it is read. -/
structure FS where
  isFile : String → Bool
  lines : String → List String

/-- Absolute path of the CMAP precipitation-correction file the probe
looks for: the input day at 23:30 minus one day, formatted into a fixed
directory and file-name pattern. -/
def CMAP_file (y m d : Nat) : String :=
  let t := predDT ⟨y, m, d, 23, 30⟩
  "/discover/nobackup/dao_ops/PrecipCorr/CMAPcorr/"
    ++ "d5124_rpit_jan12.tavg1_2d_lfo_Nx_CMAPcorr." ++ fmt_Ymd_HMz t ++ ".nc4"

/-- Absolute path of the ana.eta analysis file the probe looks for: the
input day at hour 18, under year and month subdirectories. -/
def anaeta_file (y m d : Nat) : String :=
  let t : PyDateTime := ⟨y, m, d, 18, 0⟩
  "/discover/nobackup/dao_ops/scratch/d5124_rpit_jan12/ana/"
    ++ "Y" ++ pad 4 y ++ "/" ++ "M" ++ pad 2 m ++ "/"
    ++ "d5124_rpit_jan12.ana.eta." ++ fmt_Ymd_Hz t ++ ".nc4"

/-- Path of the externally maintained task-status log scanned for the
OSTIA completion record. -/
def OSTIA_file : String :=
  "/home/dao_ops/D_BOSS/schedule/files/discover36/task_status"

/-- The composite match key joined with comma-space, built from the input
day as a datetime whose hour and minute default to zero. -/
def OSTIA_string (y m d : Nat) : String :=
  let t : PyDateTime := ⟨y, m, d, 0, 0⟩
  String.intercalate ", "
    ["QUART-OSTIA-REYNOLDS-01", fmt_HM t, fmt_date t, "COMPLETE"]

/-- Python substring membership test: pat occurs contiguously in line. -/
def containsSub (line pat : String) : Bool :=
  (line.toList).tails.any (fun t => List.isPrefixOf pat.toList t)

/-- OSTIA completion detection: the status log must exist as a file and
some line of it must contain the match key as a substring. -/
def OSTIA_found (fs : FS) (y m d : Nat) : Bool :=
  fs.isFile OSTIA_file
    && (fs.lines OSTIA_file).any (fun l => containsSub l (OSTIA_string y m d))

/-- Exit status of s2s_check.py main for a given filesystem state and
input date: an additive return code accumulating 1, 10 and 100 for the
CMAP, ana.eta and OSTIA sources respectively when missing. -/
def s2s_check_main (fs : FS) (year month day : Nat) : Nat :=
  let cmapFound := fs.isFile (CMAP_file year month day)
  let anaetaFound := fs.isFile (anaeta_file year month day)
  let ostiaFound := OSTIA_found fs year month day
  let rccode := 0
  let rccode := rccode + (if cmapFound then 0 else 1)
  let rccode := rccode + (if anaetaFound then 0 else 10)
  let rccode := rccode + (if ostiaFound then 0 else 100)
  if cmapFound && anaetaFound && ostiaFound then 0 else rccode

/-- One invocation of the check script as observed by wait_for_files:
either it returned an exit status, or the 300-second subprocess timeout
expired, or some other exception was raised while running it. -/
inductive ProbeOutcome where
  | ret (rc : Nat)
  | timedOut
  | exc
deriving DecidableEq

/-- Environment of the poll loop: the outcome of the k-th probe
invocation and the wall-clock seconds that invocation consumed. -/
structure ProbeEnv where
  outcome : Nat → ProbeOutcome
  dur : Nat → Nat

/-- Seconds slept between attempts (self.check_interval). -/
def check_interval : Nat := 900

/-- Overall wall-clock budget in seconds (self.max_wait_time). -/
def max_wait_time : Nat := 7200

/-- Per-invocation subprocess timeout of the check script, in seconds. -/
def probe_timeout : Nat := 300

/-- Result of the poll loop: whether it reported ready, the elapsed
wall-clock seconds when it returned, and how many probe invocations
were made. -/
structure WaitOutcome where
  ready : Bool
  elapsed : Nat
  attempts : Nat
deriving DecidableEq

/-- The while loop of S2SForecastRunner.wait_for_files: while elapsed
time is below max_wait_time, run the probe; status 0 returns true at
once; any other status, a subprocess timeout, or an exception sleeps
check_interval and retries; leaving the loop returns false. -/
def waitLoop (p : ProbeEnv) (attempt elapsed : Nat) : WaitOutcome :=
  if _h : elapsed < max_wait_time then
    match p.outcome attempt with
    | .ret 0 => ⟨true, elapsed + p.dur attempt, attempt + 1⟩
    | _ => waitLoop p (attempt + 1) (elapsed + p.dur attempt + check_interval)
  else ⟨false, elapsed, attempt⟩
termination_by max_wait_time - elapsed
decreasing_by
  simp only [max_wait_time, check_interval] at *
  omega

/-- S2SForecastRunner.wait_for_files, started at attempt 0 and elapsed
time 0. -/
def wait_for_files (p : ProbeEnv) : WaitOutcome := waitLoop p 0 0

/-- Elapsed wall-clock seconds at the start of attempt k, assuming every
attempt before k failed (each costs its own duration plus one sleep). -/
def elapsedAt (p : ProbeEnv) : Nat → Nat
  | 0 => 0
  | k + 1 => elapsedAt p k + p.dur k + check_interval

/-- Outcome of the sbatch subprocess call: either a completed process
with exit status, stdout and stderr, or an exception during invocation. -/
inductive SbatchOutcome where
  | res (returncode : Nat) (stdout stderr : String)
  | exc (msg : String)

/-- Path.unlink with missing_ok: the marker file is gone afterwards and
a missing file is not an error, for either prior state. -/
def unlink_missing_ok (_marker : Bool) : Bool := false

/-- Result value of submit_job: the success flag and the optional job
identifier (the tuple the Python method returns). -/
structure SubmitResult where
  success : Bool
  jobId : Option String
deriving DecidableEq

/-- S2SForecastRunner.submit_job: first delete the stale ODAS_Check.txt
marker (missing_ok), then run sbatch; success exactly when sbatch exits
0, with the trimmed stdout as job id; a nonzero exit or an exception
yields (false, none). The second and third components expose the marker
state at the moment sbatch is invoked and after the method returns. -/
def submit_job (marker0 : Bool) (sb : SbatchOutcome) :
    SubmitResult × Bool × Bool :=
  let markerAtSbatch := unlink_missing_ok marker0
  match sb with
  | .res rc out _err =>
    if rc = 0 then (⟨true, some out.trim⟩, markerAtSbatch, markerAtSbatch)
    else (⟨false, none⟩, markerAtSbatch, markerAtSbatch)
  | .exc _ => (⟨false, none⟩, markerAtSbatch, markerAtSbatch)

/-- An email notification as assembled by send_notification. -/
structure Email where
  subject : String
  body : String
deriving DecidableEq

/-- S2SForecastRunner.send_notification: build the subject and body from
the fixed templates; the success body appends the job id when present,
the failure body appends the message argument after an Error tag. -/
def send_notification (experiment_name : String) (success : Bool)
    (message : String) (job_id : Option String) : Email :=
  if success then
    ⟨"V2 ODAS Run Submitted - " ++ experiment_name,
      match job_id with
      | some j =>
        "V2 ODAS Run Submitted for experiment: " ++ experiment_name
          ++ "\nJob ID: " ++ j
      | none => "V2 ODAS Run Submitted for experiment: " ++ experiment_name⟩
  else
    ⟨"V2 ODAS Run Failed - " ++ experiment_name,
      "V2 ODAS Run Failed for experiment: " ++ experiment_name
        ++ "\nError: " ++ message⟩

/-- Environment of one orchestrator run: existence of the experiment
directory and the three required files, the probe behaviour, the initial
marker-file state, and the sbatch behaviour. -/
structure RunEnv where
  expDirExists : Bool
  datesFileExists : Bool
  checkScriptExists : Bool
  jobScriptExists : Bool
  probe : ProbeEnv
  markerPresent : Bool
  sbatch : SbatchOutcome

/-- S2SForecastRunner.validate_experiment: the experiment directory and
the three required files must all exist. -/
def validate_experiment (env : RunEnv) : Bool :=
  if !env.expDirExists then false
  else if !(env.datesFileExists && env.checkScriptExists
      && env.jobScriptExists) then false
  else true

/-- Observable outcome of S2SForecastRunner.run: the returned exit code,
the notifications sent (in order), and how many times the probe script
was invoked. -/
structure RunResult where
  exitCode : Nat
  emails : List Email
  probeInvocations : Nat
deriving DecidableEq

/-- S2SForecastRunner.run: validate, gate on the calendar, wait for
files, submit, notify. A ValueError escaping check_forecast_date
propagates out (Except.error); every other path returns 0 or 1. -/
def run (env : RunEnv) (experiment_name forecast_date : String) :
    Except String RunResult :=
  if validate_experiment env = false then
    .ok ⟨1, [send_notification experiment_name false
      "Experiment validation failed" none], 0⟩
  else
    match check_forecast_date forecast_date with
    | .error e => .error e
    | .ok elig =>
      if elig = false then .ok ⟨0, [], 0⟩
      else
        let w := wait_for_files env.probe
        if w.ready = false then
          .ok ⟨1, [send_notification experiment_name false
            "Timeout waiting for input files" none], w.attempts⟩
        else
          let sr := (submit_job env.markerPresent env.sbatch).1
          if sr.success = false then
            .ok ⟨1, [send_notification experiment_name false
              "Job submission failed" none], w.attempts⟩
          else
            .ok ⟨0, [send_notification experiment_name true "" sr.jobId],
              w.attempts⟩

/-- The module-level entry block of S2S3_Submit.py: with anything other
than exactly two user arguments it prints usage and exits 1; otherwise
it runs the orchestrator and exits with its return value, and an
uncaught exception from run escapes as an error. -/
def submit_top_main (env : RunEnv) (argv : List String) :
    Except String Nat :=
  if argv.length ≠ 3 then .ok 1
  else
    match run env (argv.getD 1 "") (argv.getD 2 "") with
    | .error e => .error e
    | .ok r => .ok r.exitCode

/-- A probe that reports ready instantly on every invocation. -/
def pReady : ProbeEnv := ⟨fun _ => .ret 0, fun _ => 0⟩

/-- A probe that always answers not-ready with status 111, whose first
three invocations cost 300, 300 and 299 seconds and whose eighth costs
300 seconds, all within the 300-second subprocess timeout. -/
def pC5 : ProbeEnv :=
  ⟨fun _ => .ret 111,
    fun k => if k < 2 then 300 else if k = 2 then 299
      else if k = 7 then 300 else 0⟩

/-- A probe that fails twice with status 111 and reports ready on its
third invocation, each invocation costing 10 seconds. -/
def pW4 : ProbeEnv :=
  ⟨fun j => if j = 2 then .ret 0 else .ret 111, fun _ => 10⟩

/-- A probe whose every invocation hits the subprocess timeout but
consumes no modeled time. -/
def pW5 : ProbeEnv := ⟨fun _ => .timedOut, fun _ => 0⟩

/-- A fully validating environment whose probe is instantly ready and
whose sbatch call accepts the job, printing an id on stdout. -/
def envA : RunEnv :=
  ⟨true, true, true, true, pReady, false, .res 0 " 123456\n" ""⟩

/-- A fully validating environment whose probe is instantly ready and
whose sbatch call exits 1 with a QOS diagnostic on stderr. -/
def envD : RunEnv :=
  ⟨true, true, true, true, pReady, true, .res 1 "" "QOS limit exceeded"⟩

/-- A filesystem with no files at all. -/
def fsW : FS := ⟨fun _ => false, fun _ => []⟩

/-- Leaving the loop: once elapsed time reaches the budget, the loop
returns false with the elapsed time and attempt count unchanged. -/
theorem waitLoop_stop (p : ProbeEnv) (a e : Nat) (h : ¬ e < max_wait_time) :
    waitLoop p a e = ⟨false, e, a⟩ := by
  rw [waitLoop]
  simp [h]

/-- A probe exit status of 0 inside the budget returns true at once. -/
theorem waitLoop_hit (p : ProbeEnv) (a e : Nat) (h : e < max_wait_time)
    (hz : p.outcome a = .ret 0) :
    waitLoop p a e = ⟨true, e + p.dur a, a + 1⟩ := by
  rw [waitLoop]
  simp [h, hz]

/-- Any other outcome inside the budget sleeps and retries, advancing
elapsed time by the invocation duration plus the sleep interval. -/
theorem waitLoop_step (p : ProbeEnv) (a e : Nat) (h : e < max_wait_time)
    (hnz : p.outcome a ≠ .ret 0) :
    waitLoop p a e = waitLoop p (a + 1) (e + p.dur a + check_interval) := by
  rw [waitLoop]
  rw [dif_pos h]
  split
  · rename_i heq
    exact absurd heq hnz
  · rfl

/-- The elapsed-time schedule is monotone in the attempt index. -/
theorem elapsedAt_mono (p : ProbeEnv) {i j : Nat} (h : i ≤ j) :
    elapsedAt p i ≤ elapsedAt p j := by
  induction h with
  | refl => exact Nat.le_refl _
  | step h ih =>
    exact Nat.le_trans ih
      (Nat.le_trans (Nat.le_add_right _ _) (Nat.le_add_right _ _))

/-- Each attempt advances elapsed time by at least one sleep interval. -/
theorem elapsedAt_ge (p : ProbeEnv) (k : Nat) :
    check_interval * k ≤ elapsedAt p k := by
  induction k with
  | zero => exact Nat.le_refl 0
  | succ k ih =>
    have h1 : elapsedAt p (k + 1)
        = elapsedAt p k + p.dur k + check_interval := rfl
    rw [h1, Nat.mul_succ]
    omega

/-- While every attempt before k has failed and attempt k still starts
inside the budget, running the loop from the start is the same as running
it from attempt k at its scheduled elapsed time. -/
theorem waitLoop_walk (p : ProbeEnv) (k : Nat)
    (hfail : ∀ j, j < k → p.outcome j ≠ .ret 0)
    (hin : elapsedAt p k < max_wait_time) :
    waitLoop p 0 0 = waitLoop p k (elapsedAt p k) := by
  induction k with
  | zero => rfl
  | succ k ih =>
    have hk : elapsedAt p k < max_wait_time :=
      Nat.lt_of_le_of_lt (elapsedAt_mono p (Nat.le_succ k)) hin
    rw [ih (fun j hj => hfail j (Nat.lt_succ_of_lt hj)) hk]
    exact waitLoop_step p k _ hk (hfail k (Nat.lt_succ_self k))

/-- If every attempt that starts inside the budget fails, the loop
reports false from any scheduled starting point. -/
theorem waitLoop_never_ready (p : ProbeEnv)
    (hfail : ∀ j, elapsedAt p j < max_wait_time → p.outcome j ≠ .ret 0) :
    ∀ j, (waitLoop p j (elapsedAt p j)).ready = false := by
  have key : ∀ n j, max_wait_time - elapsedAt p j ≤ n →
      (waitLoop p j (elapsedAt p j)).ready = false := by
    intro n
    induction n with
    | zero =>
      intro j hj
      have hge : ¬ elapsedAt p j < max_wait_time := by omega
      rw [waitLoop_stop p j _ hge]
    | succ n ih =>
      intro j hj
      by_cases hlt : elapsedAt p j < max_wait_time
      · rw [waitLoop_step p j _ hlt (hfail j hlt)]
        have h1 : waitLoop p (j + 1) (elapsedAt p j + p.dur j + check_interval)
            = waitLoop p (j + 1) (elapsedAt p (j + 1)) := rfl
        rw [h1]
        apply ih
        have h2 : elapsedAt p (j + 1)
            = elapsedAt p j + p.dur j + check_interval := rfl
        simp only [check_interval] at h2
        omega
      · rw [waitLoop_stop p j _ hlt]
  exact fun j => key _ j (Nat.le_refl _)

/-- When every probe invocation respects its own 300-second subprocess
timeout, the total elapsed time at loop exit stays below the wait budget
plus one probe timeout plus one sleep interval. -/
theorem waitLoop_elapsed_lt (p : ProbeEnv)
    (hdur : ∀ k, p.dur k ≤ probe_timeout) :
    ∀ n a e, max_wait_time - e ≤ n → e < max_wait_time →
      (waitLoop p a e).elapsed
        < max_wait_time + probe_timeout + check_interval := by
  intro n
  induction n with
  | zero =>
    intro a e h1 h2
    omega
  | succ n ih =>
    intro a e h1 h2
    rw [waitLoop]
    rw [dif_pos h2]
    split
    · show e + p.dur a < max_wait_time + probe_timeout + check_interval
      have h3 := hdur a
      omega
    · by_cases h3 : e + p.dur a + check_interval < max_wait_time
      · exact ih _ _ (by simp only [check_interval] at h1 ⊢; omega) h3
      · rw [waitLoop_stop _ _ _ h3]
        show e + p.dur a + check_interval
            < max_wait_time + probe_timeout + check_interval
        have h4 := hdur a
        omega

/-- Characterization of S2SForecastRunner.run once the date string has
parsed: the four-way branch structure on validation, eligibility,
readiness and submission. -/
theorem run_parsed (env : RunEnv) (name s : String) (y m d : Nat)
    (hp : strptimeYmd s = .ok (y, m, d)) :
    run env name s =
      if validate_experiment env = false then
        .ok ⟨1, [send_notification name false
          "Experiment validation failed" none], 0⟩
      else if eligB y m d = false then .ok ⟨0, [], 0⟩
      else if (wait_for_files env.probe).ready = false then
        .ok ⟨1, [send_notification name false
          "Timeout waiting for input files" none],
          (wait_for_files env.probe).attempts⟩
      else if (submit_job env.markerPresent env.sbatch).1.success = false then
        .ok ⟨1, [send_notification name false
          "Job submission failed" none],
          (wait_for_files env.probe).attempts⟩
      else
        .ok ⟨0, [send_notification name true ""
          (submit_job env.markerPresent env.sbatch).1.jobId],
          (wait_for_files env.probe).attempts⟩ := by
  unfold run check_forecast_date
  rw [hp]

/-- C2: check_forecast_date is eligible exactly when the whole-day offset
from Jan 1 of the same year is divisible by 5; that offset equals the
day-of-year index minus one; Jan 1 of every year is eligible; and
eligibility restarts at Jan 1 each year rather than carrying the 5-day
cycle across the year boundary: Dec 31 2024 (offset 365 in a leap year)
and the immediately following day Jan 1 2025 (offset 0) are both
eligible, one day apart. -/
theorem c2_calendar_gate (y m d : Nat) (_h : validDate y m d) :
    (eligB y m d = true ↔ (dayOfYear y m d - 1) % 5 = 0)
    ∧ toOrdinal y m d - toOrdinal y 1 1 = dayOfYear y m d - 1
    ∧ eligB y 1 1 = true
    ∧ eligB 2024 12 31 = true ∧ eligB 2025 1 1 = true
    ∧ toOrdinal 2025 1 1 - toOrdinal 2024 12 31 = 1 := by
  have key : toOrdinal y m d - toOrdinal y 1 1 = dayOfYear y m d - 1 := by
    simp only [toOrdinal, dayOfYear]
    have h0 : daysBeforeMonth y 1 = 0 := rfl
    rw [h0]
    omega
  refine ⟨?_, key, ?_, by decide, by decide, by decide⟩
  · simp only [eligB, key, beq_iff_eq]
  · simp [eligB, Nat.sub_self]

/-- C2 witness at March 6 2024, a valid date 65 whole days after Jan 1. -/
theorem c2_calendar_gate_witness :
    validDate 2024 3 6
    ∧ (eligB 2024 3 6 = true ↔ (dayOfYear 2024 3 6 - 1) % 5 = 0) :=
  ⟨by decide, (c2_calendar_gate 2024 3 6 (by decide)).1⟩

/-- C3: the probe exit status is the sum of 1, 10 and 100 over the
missing sources, so it is 0 exactly when all three are found; each
missing-source flag is recovered independently from one decimal digit of
the status; and the status always lies in the eight-value code set. -/
theorem c3_probe_status_codes (fs : FS) (y m d : Nat) :
    (s2s_check_main fs y m d
      = (if fs.isFile (CMAP_file y m d) then 0 else 1)
        + (if fs.isFile (anaeta_file y m d) then 0 else 10)
        + (if OSTIA_found fs y m d then 0 else 100))
    ∧ (s2s_check_main fs y m d = 0 ↔
        fs.isFile (CMAP_file y m d) = true
        ∧ fs.isFile (anaeta_file y m d) = true
        ∧ OSTIA_found fs y m d = true)
    ∧ (fs.isFile (CMAP_file y m d) = false
        ↔ s2s_check_main fs y m d % 10 = 1)
    ∧ (fs.isFile (anaeta_file y m d) = false
        ↔ s2s_check_main fs y m d / 10 % 10 = 1)
    ∧ (OSTIA_found fs y m d = false
        ↔ s2s_check_main fs y m d / 100 = 1)
    ∧ s2s_check_main fs y m d ∈ [0, 1, 10, 11, 100, 101, 110, 111] := by
  cases hc : fs.isFile (CMAP_file y m d) <;>
    cases ha : fs.isFile (anaeta_file y m d) <;>
      cases ho : OSTIA_found fs y m d <;>
        simp [s2s_check_main, hc, ha, ho]

/-- C10: the OSTIA flag is ready exactly when the status log exists and
some line contains the composite key as a substring; the time field of
the key is the constant 00:00 for every input date, because the probe
formats it from a datetime carrying no time-of-day component; and a
missing status-log file behaves exactly like an absent completion
record: the flag is false and the exit status gains the same +100 term
rather than a distinct error. -/
theorem c10_ostia_key (fs : FS) (y m d : Nat) :
    OSTIA_string y m d
      = "QUART-OSTIA-REYNOLDS-01, 00:00, " ++ fmt_date ⟨y, m, d, 0, 0⟩
        ++ ", COMPLETE"
    ∧ fmt_HM ⟨y, m, d, 0, 0⟩ = "00:00"
    ∧ OSTIA_found fs y m d
      = (fs.isFile OSTIA_file
        && (fs.lines OSTIA_file).any
          (fun l => containsSub l (OSTIA_string y m d)))
    ∧ OSTIA_string 2024 1 2
      = "QUART-OSTIA-REYNOLDS-01, 00:00, 2024-01-02, COMPLETE"
    ∧ (fs.isFile OSTIA_file = false →
        OSTIA_found fs y m d = false
        ∧ s2s_check_main fs y m d
          = (if fs.isFile (CMAP_file y m d) then 0 else 1)
            + (if fs.isFile (anaeta_file y m d) then 0 else 10) + 100) := by
  have hHM : fmt_HM ⟨y, m, d, 0, 0⟩ = "00:00" := by
    show pad 2 0 ++ ":" ++ pad 2 0 = "00:00"
    rfl
  refine ⟨?_, hHM, rfl, by decide, ?_⟩
  · show String.intercalate ", "
        ["QUART-OSTIA-REYNOLDS-01", fmt_HM ⟨y, m, d, 0, 0⟩,
          fmt_date ⟨y, m, d, 0, 0⟩, "COMPLETE"] = _
    rw [hHM]
    simp [String.intercalate, String.intercalate.go, String.append_assoc]
  · intro hmiss
    have hfound : OSTIA_found fs y m d = false := by
      simp [OSTIA_found, hmiss]
    refine ⟨hfound, ?_⟩
    cases hc : fs.isFile (CMAP_file y m d) <;>
      cases ha : fs.isFile (anaeta_file y m d) <;>
        simp [s2s_check_main, hc, ha, hfound]

/-- C10 witness: on an empty filesystem the OSTIA flag is down and the
probe reports the full code 111 for Jan 2 2024. -/
theorem c10_ostia_key_witness :
    fsW.isFile OSTIA_file = false
    ∧ OSTIA_found fsW 2024 1 2 = false
    ∧ s2s_check_main fsW 2024 1 2 = 111 := by
  have h := (c10_ostia_key fsW 2024 1 2).2.2.2.2 rfl
  exact ⟨rfl, h.1, by rw [h.2]; decide⟩

/-- C7: the stale marker deletion never fails on an absent file, the
marker is already absent at the moment sbatch is invoked, and it is still
absent after submit_job returns, for either prior marker state and every
sbatch outcome. -/
theorem c7_marker_cleared (marker0 : Bool) (sb : SbatchOutcome) :
    unlink_missing_ok marker0 = false
    ∧ (submit_job marker0 sb).2.1 = false
    ∧ (submit_job marker0 sb).2.2 = false := by
  refine ⟨rfl, ?_, ?_⟩ <;>
    cases sb <;> simp [submit_job, unlink_missing_ok] <;> split <;> rfl

/-- C6 amended: submit_job succeeds exactly when sbatch exits 0, in which
case the job id is the trimmed stdout; a nonzero exit or an invocation
exception yields the pair (false, none), which carries no diagnostic
text; and the failure notification later built on the submission-failure
path has the fixed body template around the experiment name, independent
of the stderr sbatch produced. -/
theorem c6_submit_result (marker0 : Bool) (rc : Nat)
    (out err msg name : String) :
    ((submit_job marker0 (.res rc out err)).1.success = true ↔ rc = 0)
    ∧ (submit_job marker0 (.res rc out err)).1.jobId
      = (if rc = 0 then some out.trim else none)
    ∧ (submit_job marker0 (.exc msg)).1 = ⟨false, none⟩
    ∧ (send_notification name false "Job submission failed" none).body
      = "V2 ODAS Run Failed for experiment: " ++ name
        ++ "\nError: Job submission failed" := by
  refine ⟨?_, ?_, rfl, by simp [send_notification, String.append_assoc]⟩ <;>
    simp [submit_job] <;> split <;> simp_all

/-- C6 counterexample: with an eligible, instantly ready date and the
scheduler exiting nonzero with stderr QOS limit exceeded, the run exits
1 with exactly one failure notification — but its body is the fixed
template and does not contain the captured stderr text. -/
theorem c6_counterexample :
    run envD "exp1" "2024-01-01"
      = .ok ⟨1, [⟨"V2 ODAS Run Failed - exp1",
        "V2 ODAS Run Failed for experiment: exp1\nError: Job submission failed"⟩],
        1⟩
    ∧ containsSub
        "V2 ODAS Run Failed for experiment: exp1\nError: Job submission failed"
        "QOS limit exceeded" = false := by
  have hw : wait_for_files pReady = ⟨true, 0, 1⟩ := by
    show waitLoop pReady 0 0 = _
    rw [waitLoop_hit pReady 0 0 (by decide) rfl]
    decide
  constructor
  · have h3 : envD.probe = pReady := rfl
    rw [run_parsed envD "exp1" "2024-01-01" 2024 1 1 rfl, h3, hw]
    rfl
  · decide

/-- C4: the poll loop returns true on the first attempt inside the
wall-clock budget whose probe exits 0, no matter how many earlier
attempts returned nonzero, timed out or raised an exception (each such
attempt sleeps one interval, and the overall deadline is never reset);
and when every attempt that starts inside the budget fails, it returns
false instead of raising. -/
theorem c4_poll_loop (p : ProbeEnv) :
    (∀ k, (∀ j, j < k → p.outcome j ≠ .ret 0) → p.outcome k = .ret 0 →
      elapsedAt p k < max_wait_time →
      wait_for_files p = ⟨true, elapsedAt p k + p.dur k, k + 1⟩)
    ∧ ((∀ j, elapsedAt p j < max_wait_time → p.outcome j ≠ .ret 0) →
      (wait_for_files p).ready = false) := by
  constructor
  · intro k hfail hz hin
    show waitLoop p 0 0 = _
    rw [waitLoop_walk p k hfail hin]
    exact waitLoop_hit p k _ hin hz
  · intro hfail
    exact waitLoop_never_ready p hfail 0

/-- C4 witness: a probe failing twice then succeeding on attempt 2
returns true with elapsed time 1830 after three invocations. -/
theorem c4_poll_loop_witness :
    pW4.outcome 2 = .ret 0 ∧ elapsedAt pW4 2 < max_wait_time
    ∧ wait_for_files pW4 = ⟨true, 1830, 3⟩ :=
  ⟨by decide, by decide,
    (c4_poll_loop pW4).1 2 (by decide) (by decide) (by decide)⟩

/-- C5 counterexample: a probe trace whose every invocation stays within
the 300-second subprocess timeout drives the loop to return at elapsed
time 8399 seconds, strictly more than max_wait_time + check_interval
= 8100: the claimed bound does not hold. -/
theorem c5_counterexample :
    wait_for_files pC5 = ⟨false, 8399, 8⟩
    ∧ ¬ ((wait_for_files pC5).elapsed ≤ max_wait_time + check_interval) := by
  have h1 : waitLoop pC5 0 0 = waitLoop pC5 7 (elapsedAt pC5 7) :=
    waitLoop_walk pC5 7 (by decide) (by decide)
  have h2 : waitLoop pC5 7 (elapsedAt pC5 7)
      = waitLoop pC5 8 (elapsedAt pC5 7 + pC5.dur 7 + check_interval) :=
    waitLoop_step pC5 7 _ (by decide) (by decide)
  have h3 : waitLoop pC5 8 (elapsedAt pC5 7 + pC5.dur 7 + check_interval)
      = ⟨false, elapsedAt pC5 7 + pC5.dur 7 + check_interval, 8⟩ :=
    waitLoop_stop pC5 8 _ (by decide)
  have hmain : wait_for_files pC5 = ⟨false, 8399, 8⟩ := by
    show waitLoop pC5 0 0 = _
    rw [h1, h2, h3]
    decide
  exact ⟨hmain, by rw [hmain]; decide⟩

/-- C5 amended: under the per-invocation cost bound that the subprocess
timeout actually enforces, the poll loop always returns with elapsed
wall-clock time strictly below max_wait_time + probe_timeout +
check_interval; the companion counterexample shows the spec bound of
max_wait_time + check_interval is not met. -/
theorem c5_poll_loop_bound (p : ProbeEnv)
    (hdur : ∀ k, p.dur k ≤ probe_timeout) :
    (wait_for_files p).elapsed
      < max_wait_time + probe_timeout + check_interval :=
  waitLoop_elapsed_lt p hdur max_wait_time 0 0 (by omega) (by decide)

/-- C5 witness: a probe that always times out instantly keeps the loop
inside the amended bound. -/
theorem c5_poll_loop_bound_witness :
    (wait_for_files pW5).elapsed
      < max_wait_time + probe_timeout + check_interval :=
  c5_poll_loop_bound pW5 (fun _ => Nat.zero_le _)

/-- C1: for every run on a date string that parses as a well-formed ISO
date, the exit status follows the orchestrator state machine: 0 when
validation passes and either the date is not eligible or the probe
reports ready and submission succeeds; 1 when validation fails, the wait
times out, or submission fails; and on the not-eligible path no
notification is sent and the probe is never invoked. -/
theorem c1_exit_state_machine (env : RunEnv) (name s : String)
    (y m d : Nat) (hp : strptimeYmd s = .ok (y, m, d)) :
    ∃ r : RunResult, run env name s = .ok r
      ∧ r.exitCode
        = (if validate_experiment env = false then 1
          else if eligB y m d = false then 0
          else if (wait_for_files env.probe).ready = false then 1
          else if (submit_job env.markerPresent env.sbatch).1.success = false
            then 1 else 0)
      ∧ (validate_experiment env = true → eligB y m d = false →
          r.emails = [] ∧ r.probeInvocations = 0) := by
  rw [run_parsed env name s y m d hp]
  split_ifs with h1 h2 h3 h4 <;> exact ⟨_, rfl, rfl, by simp_all⟩

/-- C1 witness: scenario B, Jan 2 2024 is not eligible, so the run exits
0 with no notification and no probe invocation. -/
theorem c1_exit_state_machine_witness :
    ∃ r : RunResult, run envA "expA" "2024-01-02" = .ok r
      ∧ r.exitCode
        = (if validate_experiment envA = false then 1
          else if eligB 2024 1 2 = false then 0
          else if (wait_for_files envA.probe).ready = false then 1
          else if (submit_job envA.markerPresent envA.sbatch).1.success = false
            then 1 else 0)
      ∧ (validate_experiment envA = true → eligB 2024 1 2 = false →
          r.emails = [] ∧ r.probeInvocations = 0) :=
  c1_exit_state_machine envA "expA" "2024-01-02" 2024 1 2 rfl

/-- C8: on a well-formed date every run produces at most one
notification, tied to its path: the validation-failure, timeout and
submission-failure paths each send exactly one failure notification, the
eligibility-skip path sends none, and the successful path sends exactly
one success notification; moreover every exit-1 run carries exactly one
failure-subject email and every exit-0 run carries none or one
success-subject email. -/
theorem c8_notification_count (env : RunEnv) (name s : String)
    (y m d : Nat) (hp : strptimeYmd s = .ok (y, m, d)) :
    ∃ r : RunResult, run env name s = .ok r
      ∧ r.emails.length ≤ 1
      ∧ (validate_experiment env = false →
          r.emails = [send_notification name false
            "Experiment validation failed" none])
      ∧ (validate_experiment env = true → eligB y m d = false →
          r.emails = [])
      ∧ (validate_experiment env = true → eligB y m d = true →
          (wait_for_files env.probe).ready = false →
          r.emails = [send_notification name false
            "Timeout waiting for input files" none])
      ∧ (validate_experiment env = true → eligB y m d = true →
          (wait_for_files env.probe).ready = true →
          (submit_job env.markerPresent env.sbatch).1.success = false →
          r.emails = [send_notification name false
            "Job submission failed" none])
      ∧ (validate_experiment env = true → eligB y m d = true →
          (wait_for_files env.probe).ready = true →
          (submit_job env.markerPresent env.sbatch).1.success = true →
          r.emails = [send_notification name true ""
            (submit_job env.markerPresent env.sbatch).1.jobId])
      ∧ (r.exitCode = 1 →
          ∃ e, r.emails = [e]
            ∧ e.subject = "V2 ODAS Run Failed - " ++ name)
      ∧ (r.exitCode = 0 →
          r.emails = []
          ∨ ∃ e, r.emails = [e]
            ∧ e.subject = "V2 ODAS Run Submitted - " ++ name) := by
  rw [run_parsed env name s y m d hp]
  split_ifs with h1 h2 h3 h4 <;>
    refine ⟨_, rfl, by simp, ?_, ?_, ?_, ?_, ?_, ?_⟩ <;>
      intros <;> simp_all [send_notification]

/-- C8 witness: scenario A, Jan 1 2024 with an instantly ready probe and
an accepting scheduler, exercising the successful path. -/
theorem c8_notification_count_witness :
    ∃ r : RunResult, run envA "expA" "2024-01-01" = .ok r
      ∧ r.emails.length ≤ 1
      ∧ (validate_experiment envA = false →
          r.emails = [send_notification "expA" false
            "Experiment validation failed" none])
      ∧ (validate_experiment envA = true → eligB 2024 1 1 = false →
          r.emails = [])
      ∧ (validate_experiment envA = true → eligB 2024 1 1 = true →
          (wait_for_files envA.probe).ready = false →
          r.emails = [send_notification "expA" false
            "Timeout waiting for input files" none])
      ∧ (validate_experiment envA = true → eligB 2024 1 1 = true →
          (wait_for_files envA.probe).ready = true →
          (submit_job envA.markerPresent envA.sbatch).1.success = false →
          r.emails = [send_notification "expA" false
            "Job submission failed" none])
      ∧ (validate_experiment envA = true → eligB 2024 1 1 = true →
          (wait_for_files envA.probe).ready = true →
          (submit_job envA.markerPresent envA.sbatch).1.success = true →
          r.emails = [send_notification "expA" true ""
            (submit_job envA.markerPresent envA.sbatch).1.jobId])
      ∧ (r.exitCode = 1 →
          ∃ e, r.emails = [e]
            ∧ e.subject = "V2 ODAS Run Failed - " ++ "expA")
      ∧ (r.exitCode = 0 →
          r.emails = []
          ∨ ∃ e, r.emails = [e]
            ∧ e.subject = "V2 ODAS Run Submitted - " ++ "expA") :=
  c8_notification_count envA "expA" "2024-01-01" 2024 1 1 rfl

/-- C9 amended: whenever the date argument parses as a valid ISO date
the orchestrator maps every failure to exit status 0 or 1 without any
exception escaping, and a wrong argument count exits 1; but the
companion counterexample shows that a malformed or out-of-range date
string raises ValueError out of strptime inside check_forecast_date,
uncaught by any handler. -/
theorem c9_exit_status (env : RunEnv) (name s : String) (y m d : Nat)
    (hp : strptimeYmd s = .ok (y, m, d)) :
    (∃ c, submit_top_main env ["S2S3_Submit.py", name, s] = .ok c ∧ c ≤ 1)
    ∧ submit_top_main env ["S2S3_Submit.py"] = .ok 1 := by
  constructor
  · have hargv : submit_top_main env ["S2S3_Submit.py", name, s]
        = (match run env name s with
          | .error e => .error e
          | .ok r => .ok r.exitCode) := rfl
    rw [hargv, run_parsed env name s y m d hp]
    split_ifs <;> exact ⟨_, rfl, by simp⟩
  · rfl

/-- C9 witness at the eligible date Jan 1 2024. -/
theorem c9_exit_status_witness :
    (∃ c, submit_top_main envA ["S2S3_Submit.py", "expA", "2024-01-01"]
        = .ok c ∧ c ≤ 1)
    ∧ submit_top_main envA ["S2S3_Submit.py"] = .ok 1 :=
  c9_exit_status envA "expA" "2024-01-01" 2024 1 1 rfl

/-- C9 counterexample: with a fully validating experiment, the date
argument 2024-13-01 makes strptime raise ValueError inside
check_forecast_date; no handler catches it, so the exception escapes the
orchestrator instead of being mapped to an exit code. -/
theorem c9_counterexample :
    submit_top_main envA ["S2S3_Submit.py", "expA", "2024-13-01"]
      = .error "ValueError"
    ∧ run envA "expA" "2024-13-01" = .error "ValueError" :=
  ⟨rfl, rfl⟩
